import Mathlib

/-!
Shallow embedding of the ConsoleVerse terminal-output library
(src/consoleverse) and verification of its specification claims.

Output-producing operations are modelled as pure functions that return the
text they would write to standard output together with the updated
process-wide configuration; fallible operations return their result through
`Except` / an `Option ConsoleError` component.
-/

namespace ConsoleVerse

/- ~~~~~~~~~~~~~~ Terminal capability layer (term/new_colors.py) ~~~~~~~~~~~~~~ -/

/-- ANSI escape sequence START_FORMAT_COLOR applied to a numeric code:
the escape character, an opening square bracket, the code, and the letter m. -/
def ansiSeq (code : Nat) : String := "\x1b[" ++ toString code ++ "m"

/-- END_FORMAT_COLOR, the shared reset sequence (code 0). -/
def resetSeq : String := ansiSeq 0

/-- Python str.upper (String.toUpper, written over the character list so that
concrete instances evaluate by reduction). -/
def pyUpper (s : String) : String := ⟨s.data.map Char.toUpper⟩

/-- ColorText.COLORS: the 8 foreground colors, keyed by canonical upper-case name. -/
def COLORS : List (String × String) :=
  [("BLACK", ansiSeq 30), ("RED", ansiSeq 31), ("GREEN", ansiSeq 32),
   ("YELLOW", ansiSeq 33), ("BLUE", ansiSeq 34), ("MAGENTA", ansiSeq 35),
   ("CYAN", ansiSeq 36), ("WHITE", ansiSeq 37)]

/-- ColorBackground.BACKGROUNDS: the 8 background colors. -/
def BACKGROUNDS : List (String × String) :=
  [("BG_BLACK", ansiSeq 40), ("BG_RED", ansiSeq 41), ("BG_GREEN", ansiSeq 42),
   ("BG_YELLOW", ansiSeq 43), ("BG_BLUE", ansiSeq 44), ("BG_MAGENTA", ansiSeq 45),
   ("BG_CYAN", ansiSeq 46), ("BG_WHITE", ansiSeq 47)]

/-- ColorStyle.STYLES: the 5 text styles. -/
def STYLES : List (String × String) :=
  [("BOLD", ansiSeq 1), ("UNDERLINE", ansiSeq 4), ("BLINK", ansiSeq 5),
   ("REVERSE", ansiSeq 7), ("CONCEAL", ansiSeq 8)]

/-- Dictionary access COLORS[color.upper()] (case-insensitive lookup). -/
def lookupColor (color : String) : Option String := COLORS.lookup (pyUpper color)

/-- Dictionary access BACKGROUNDS[background.upper()]. -/
def lookupBackground (background : String) : Option String :=
  BACKGROUNDS.lookup (pyUpper background)

/-- Dictionary access STYLES[style.upper()]. -/
def lookupStyle (style : String) : Option String := STYLES.lookup (pyUpper style)

/- ~~~~~~~~~~~~~~ Console error taxonomy (exceptions) ~~~~~~~~~~~~~~ -/

/-- The exception values the library can raise: the three ConsoleVerse errors
from exceptions/ex_console.py, the term-layer lookup errors, and plain
ValueError with its message. -/
inductive ConsoleError where
  | notDefinedStyle (style : String)
  | notDefinedBorderStyle (border_style : String)
  | notDefinedColor (color : String)
  | colorTextError (color : String)
  | colorBackgroundError (background : String)
  | colorStyleError (style : String)
  | valueError (msg : String)
deriving DecidableEq, Repr

/-- English rendering of ErrorNotDefinedStyle: its MSG template with the
offending style name interpolated. -/
def errorNotDefinedStyleMsgEn (style : String) : String :=
  "The style \x22" ++ style ++ "\x22 is not defined in the consoleverse"

/-- ColorText.__getitem__: COLORS[color.upper()], raising ColorTextError
carrying the original (un-uppercased) name on a missing key. -/
def colorTextGetItem (color : String) : Except ConsoleError String :=
  match lookupColor color with
  | some s => .ok s
  | none => .error (.colorTextError color)

/-- ColorText.__contains__: color.upper() in COLORS. -/
def colorTextContains (color : String) : Bool := (lookupColor color).isSome

/-- ColorBackground.__getitem__. -/
def colorBackgroundGetItem (background : String) : Except ConsoleError String :=
  match lookupBackground background with
  | some s => .ok s
  | none => .error (.colorBackgroundError background)

/-- ColorBackground.__contains__. -/
def colorBackgroundContains (background : String) : Bool :=
  (lookupBackground background).isSome

/-- ColorStyle.__getitem__ (exposed to console.py as StyleText). -/
def styleTextGetItem (style : String) : Except ConsoleError String :=
  match lookupStyle style with
  | some s => .ok s
  | none => .error (.colorStyleError style)

/-- ColorStyle.__contains__. -/
def styleTextContains (style : String) : Bool := (lookupStyle style).isSome

/- ~~~~~~~~~~~~~~ Python string helpers ~~~~~~~~~~~~~~ -/

/-- Python string repetition s * n for a non-negative count. -/
def pyRep (s : String) : Nat → String
  | 0 => ""
  | n + 1 => s ++ pyRep s n

/-- Python string repetition s * n for an int count (non-positive gives ''). -/
def pyRepZ (s : String) (n : Int) : String := pyRep s n.toNat

/-- Python slice s[:-n] for an int n: for positive n, everything except the
last n characters; for non-positive n it is s[:(-n)], a prefix of length -n
(so s[:-0] is the empty string). -/
def pyTakeToNeg (s : String) (n : Int) : String :=
  if 0 < n then ⟨s.data.take (s.length - n.toNat)⟩ else ⟨s.data.take (-n).toNat⟩

/-- Python format centering (the caret alignment): pad with spaces to the
requested width, the extra odd space going to the right. -/
def pyCenter (s : String) (w : Nat) : String :=
  let pad := w - s.length
  ⟨List.replicate (pad / 2) ' '⟩ ++ s ++ ⟨List.replicate (pad - pad / 2) ' '⟩

/-- Python str.split on the line-break character: the groups of characters
between the occurrences of the separator (one empty group for the empty
string, as in Python). -/
def splitLinesAux : List Char → List (List Char)
  | [] => [[]]
  | c :: cs =>
      let rest := splitLinesAux cs
      if c = '\n' then [] :: rest
      else (c :: rest.headD []) :: rest.tail

/-- message.split on the line-break character, as a String operation. -/
def pySplitLines (s : String) : List String :=
  (splitLinesAux s.data).map fun l => ⟨l⟩

/-- Python format right-justification (the greater-than alignment). -/
def pyRJust (s : String) (w : Nat) : String :=
  ⟨List.replicate (w - s.length) ' '⟩ ++ s

/- ~~~~~~~~~~~~~~ Console engine configuration (_ConsoleConfig) ~~~~~~~~~~~~~~ -/

/-- The engine's process-wide configuration singleton _ConsoleConfig. -/
structure Config where
  indentation_type : String := " "
  indentation_lvl : String := ""
  indentantion_size : Int := 2
  is_init : Bool := false
  autoreset_colors : Bool := true
deriving DecidableEq

/-- _ConsoleConfig._init: lazy initialization performed by println — if the
console was never initialized, mark it initialized and reset the indentation. -/
def Config.lazyInit (cfg : Config) : Config :=
  if !cfg.is_init then { cfg with is_init := true, indentation_lvl := "" } else cfg

/-- _ConsoleConfig.init: set all four fields, reset indentation, clear the
screen when asked. The second component counts clear-screen invocations. -/
def consoleConfigInit (cfg : Config) (clear : Bool) (indentation_type : String)
    (indentation_size : Int) (autoreset_colors : Bool) : Config × Nat :=
  let cfg := { cfg with
    indentation_lvl := ""
    indentantion_size := indentation_size
    indentation_type := indentation_type
    autoreset_colors := autoreset_colors }
  ({ cfg with is_init := true }, if clear then 1 else 0)

/-- Module-level init: delegates to _ConsoleConfig.init, then clears the
screen once more itself when clear is true. Counts clear-screen invocations. -/
def init (cfg : Config) (clear : Bool) (indentation_type : String)
    (indentation_size : Int) (autoreset_colors : Bool) : Config × Nat :=
  let (cfg, c1) := consoleConfigInit cfg clear indentation_type indentation_size
    autoreset_colors
  let c2 := if clear then 1 else 0
  ({ cfg with is_init := true }, c1 + c2)

/-- add_lvl / _ConsoleConfig.add_indentation_lvl: append one indentation level
(indentation_type repeated indentantion_size times). -/
def add_lvl (cfg : Config) : Config :=
  { cfg with indentation_lvl :=
      cfg.indentation_lvl ++ pyRepZ cfg.indentation_type cfg.indentantion_size }

/-- del_lvl / _ConsoleConfig.del_indentation_lvl: the slice
indentation_lvl[:-indentantion_size]. -/
def del_lvl (cfg : Config) : Config :=
  { cfg with indentation_lvl :=
      pyTakeToNeg cfg.indentation_lvl cfg.indentantion_size }

/- ~~~~~~~~~~~~~~ Engine colorize and println (console.py) ~~~~~~~~~~~~~~ -/

/-- console._colorize, transliterated: each lookup is guarded by a membership
test and falls back to the empty sequence; the reset sequence is appended when
requested. The Except carries any exception a lookup would raise. -/
def _colorize (text color bg_color style : String) (reset_console_colors : Bool) :
    Except ConsoleError String :=
  match (if colorTextContains color then colorTextGetItem color else .ok ""),
        (if colorBackgroundContains bg_color then colorBackgroundGetItem bg_color
         else .ok ""),
        (if styleTextContains style then styleTextGetItem style else .ok "") with
  | .ok ctext, .ok cbaground, .ok stext =>
      let colorized_text := ctext ++ cbaground ++ stext ++ text
      .ok (if reset_console_colors then colorized_text ++ resetSeq
           else colorized_text)
  | .error e, _, _ => .error e
  | _, .error e, _ => .error e
  | _, _, .error e => .error e

/-- The value console._colorize always computes: guarded lookups default to
the empty sequence on an unknown name. -/
def _colorizeP (text color bg_color style : String)
    (reset_console_colors : Bool) : String :=
  let ctext := (lookupColor color).getD ""
  let cbaground := (lookupBackground bg_color).getD ""
  let stext := (lookupStyle style).getD ""
  let colorized_text := ctext ++ cbaground ++ stext ++ text
  if reset_console_colors then colorized_text ++ resetSeq else colorized_text

/-- console.__to_string: join the stringified values with the separator. -/
def __to_string (values : List String) (sep : String) : String :=
  String.intercalate sep values

/-- console.println: lazy-init, join the message parts, prepend the current
indentation when withlvl, colorize, and emit followed by endl. Returns the
updated configuration and the emitted text (or a raised exception). -/
def println (cfg : Config) (message : List String) (endl : String)
    (withlvl : Bool) (color bg_color : String) (reset_all_colors : Bool)
    (style : String) (sep : String) : Config × Except ConsoleError String :=
  let cfg := cfg.lazyInit
  let msg := __to_string message sep
  let msg := if withlvl then cfg.indentation_lvl ++ msg else msg
  match _colorize msg color bg_color style reset_all_colors with
  | .ok t => (cfg, .ok (t ++ endl))
  | .error e => (cfg, .error e)

/-- println's emitted text (console.println can never raise, because
_colorize guards every lookup). -/
def printlnP (cfg : Config) (message : List String) (endl : String)
    (withlvl : Bool) (color bg_color : String) (reset_all_colors : Bool)
    (style : String) (sep : String) : Config × String :=
  let cfg := cfg.lazyInit
  let msg := __to_string message sep
  let msg := if withlvl then cfg.indentation_lvl ++ msg else msg
  (cfg, _colorizeP msg color bg_color style reset_all_colors ++ endl)

/-- console.new_line: println of the empty string without indentation. -/
def new_lineP (cfg : Config) : Config × String :=
  printlnP cfg [""] "\n" false "" "" true "" " "

/- ~~~~~~~~~~~~~~ Legacy facade (consoleverse/__init__.py) ~~~~~~~~~~~~~~ -/

/-- Modelled from the spec: get_color from consoleverse.term (the term package
init module is not under src). An empty-string name short-circuits to the
empty sequence; otherwise a case-insensitive lookup that fails with the
unknown-color error carrying the name. -/
def get_color (color : String) : Except ConsoleError String :=
  if color = "" then .ok ""
  else match lookupColor color with
    | some s => .ok s
    | none => .error (.notDefinedColor color)

/-- Modelled from the spec: get_background from consoleverse.term. -/
def get_background (background : String) : Except ConsoleError String :=
  if background = "" then .ok ""
  else match lookupBackground background with
    | some s => .ok s
    | none => .error (.notDefinedColor background)

/-- Modelled from the spec: get_style from consoleverse.term. -/
def get_style (style : String) : Except ConsoleError String :=
  if style = "" then .ok ""
  else match lookupStyle style with
    | some s => .ok s
    | none => .error (.notDefinedStyle style)

/-- Modelled from the spec: reset_colors from consoleverse.term returns the
shared reset sequence. -/
def reset_colors_term : String := resetSeq

/-- The facade's own process-wide configuration singleton ConsoleConfig. -/
structure FacadeConfig where
  indentation_type : String := " "
  indentation_lvl : String := ""
  indentantion_size : Int := 2
  is_start_console : Bool := false
  autoreset_colors : Bool := true
deriving DecidableEq

/-- Facade start_console: reset indentation, store the settings, mark started.
The second component counts clear-screen invocations. -/
def start_console (cfg : FacadeConfig) (clear : Bool) (indentation_type : String)
    (indentation_size : Int) (autoreset_colors : Bool) : FacadeConfig × Nat :=
  ({ cfg with
      indentation_lvl := ""
      indentantion_size := indentation_size
      indentation_type := indentation_type
      autoreset_colors := autoreset_colors
      is_start_console := true },
   if clear then 1 else 0)

/-- Facade __start_console: lazy start with all-default settings and no
screen clear. -/
def FacadeConfig.lazyStart (cfg : FacadeConfig) : FacadeConfig :=
  if !cfg.is_start_console then (start_console cfg false " " 2 true).1 else cfg

/-- Facade del_lvl: the slice indentation_lvl[:-indentantion_size]. -/
def facade_del_lvl (cfg : FacadeConfig) : FacadeConfig :=
  { cfg with indentation_lvl :=
      pyTakeToNeg cfg.indentation_lvl cfg.indentantion_size }

/-- Facade _colorize: unguarded term-layer lookups concatenated before the
text; reset_console_colors is the string whose Python truthiness (being
non-empty) decides whether the reset sequence is appended. -/
def facade_colorize (text color bg_color style : String)
    (reset_console_colors : String) : Except ConsoleError String :=
  match get_color color, get_background bg_color, get_style style with
  | .ok c, .ok b, .ok s =>
      let colorized_text := c ++ b ++ s ++ text
      .ok (if reset_console_colors ≠ "" then colorized_text ++ reset_colors_term
           else colorized_text)
  | .error e, _, _ => .error e
  | _, .error e, _ => .error e
  | _, _, .error e => .error e

/-- Facade println: lazy start, join, indent, then colorize with
reset_console_colors set to the reset string exactly when reset_all_colors or
the configuration's autoreset_colors holds. -/
def facadePrintln (cfg : FacadeConfig) (message : List String) (endl : String)
    (withlvl : Bool) (color bg_color : String) (reset_all_colors : Bool)
    (style : String) (sep : String) : FacadeConfig × Except ConsoleError String :=
  let cfg := cfg.lazyStart
  let msg := __to_string message sep
  let msg := if withlvl then cfg.indentation_lvl ++ msg else msg
  let reset_console_colors :=
    if reset_all_colors || cfg.autoreset_colors then reset_colors_term else ""
  match facade_colorize msg color bg_color style reset_console_colors with
  | .ok t => (cfg, .ok (t ++ endl))
  | .error e => (cfg, .error e)

/- ~~~~~~~~~~~~~~ Blocks, rules, progress bar (console.py) ~~~~~~~~~~~~~~ -/

/-- Modelled from the spec: the config.lang language selector (module not
under src), one of English or Spanish. -/
inductive Lang where
  | en
  | es
deriving DecidableEq

/-- The __START_LANGS marker table. -/
def startMarker : Lang → String
  | .en => "START"
  | .es => "INICIA"

/-- The __END_LANGS marker table. -/
def endMarker : Lang → String
  | .en => "END"
  | .es => "TERMINA"

/-- console.start_block: print the language marker and the upper-cased title,
then add one indentation level. -/
def start_block (l : Lang) (cfg : Config) (message : List String)
    (color bg_color : String) : Config × String :=
  let msg := __to_string message " "
  let (cfg, out) := printlnP cfg [startMarker l ++ " " ++ pyUpper msg] "\n" true
    color bg_color true "" " "
  (add_lvl cfg, out)

/-- console.end_block: remove one indentation level, print the language marker
and the upper-cased title, then a blank line. -/
def end_block (l : Lang) (cfg : Config) (message : List String)
    (color bg_color style : String) : Config × String :=
  let msg := __to_string message " "
  let cfg := del_lvl cfg
  let (cfg, o1) := printlnP cfg [endMarker l ++ " " ++ pyUpper msg] "\n" true
    color bg_color true style " "
  let (cfg, o2) := new_lineP cfg
  (cfg, o1 ++ o2)

/-- console.line: build the rule by repeating the pattern, apply the source's
trimming test (the slice line[:-1] compared with a single space), print the
rule and then a blank line. -/
def line (cfg : Config) (size : Nat) (style : String)
    (color bg_color style_text : String) : Config × String :=
  let l := pyRep style size
  let l2 : String := ⟨l.data.dropLast⟩
  let l := if l2 = " " then l2 else l
  let (cfg, o1) := printlnP cfg [l] "\n" true color bg_color true style_text " "
  let (cfg, o2) := new_lineP cfg
  (cfg, o1 ++ o2)

/-- Python int(q) on the values progress_bar computes (both non-negative after
validation), which there coincides with the floor: fdiv of the reduced
numerator by the denominator. -/
def int_of_rat (q : ℚ) : Int := q.num.fdiv q.den

/-- console.progress_bar: validate, then print the assembled bar through
println with default options. -/
def progress_bar (cfg : Config) (progress : ℚ) (width : Int)
    (bar start_bar end_bar spacing : String) (pct : Bool) :
    Config × Except ConsoleError String :=
  if progress < 0 ∨ 1 < progress then
    (cfg, .error (.valueError "The progress must be between 0 and 1"))
  else if width < 0 then
    (cfg, .error (.valueError "The width must be greater than 0"))
  else if bar.length ≠ 1 then
    (cfg, .error (.valueError "The bar must be a single character"))
  else if start_bar.length ≠ 1 then
    (cfg, .error (.valueError "The start_bar must be a single character"))
  else if end_bar.length ≠ 1 then
    (cfg, .error (.valueError "The end_bar must be a single character"))
  else
    let progress_bar := int_of_rat (progress * width)
    let pct_bar := if pct
      then " (" ++ toString (int_of_rat (progress * 100)) ++ "%)" else ""
    let (cfg, out) := printlnP cfg
      [start_bar ++ pyRepZ bar progress_bar ++
        pyRepZ spacing (width - progress_bar) ++ end_bar ++ pct_bar]
      "\n" true "" "" true "" " "
    (cfg, .ok out)

/- ~~~~~~~~~~~~~~ Text box (console.py) ~~~~~~~~~~~~~~ -/

/-- Modelled from the spec: the single-line and double-line box-drawing glyph
records of term.emojis.Line (module not under src) — horizontal, vertical and
the four corner glyphs of each set. -/
def Line_SH : String := "─"
def Line_SV : String := "│"
def Line_STL : String := "┌"
def Line_STR : String := "┐"
def Line_SBL : String := "└"
def Line_SBR : String := "┘"
def Line_DH : String := "═"
def Line_DV : String := "║"
def Line_DTL : String := "╔"
def Line_DTR : String := "╗"
def Line_DBL : String := "╚"
def Line_DBR : String := "╝"

/-- The frame-printing tail of console.textbox: top edge, blank interior row,
one framed row per message line, blank interior row, bottom edge. -/
def textboxFrame (cfg : Config) (lines : List String) (max_len : Nat)
    (top bottom vertical_blank vertical : String) (withlvl : Bool)
    (color bg_color : String) (reset_all_colors : Bool)
    (style border_color border_style : String) : Config × String :=
  let r1 := printlnP cfg [top] "\n" withlvl border_color "" true
    border_style " "
  let r2 := printlnP r1.1 [vertical_blank] "\n" withlvl border_color ""
    true border_style " "
  let rrows := lines.foldl (fun acc l =>
    let p1 := printlnP acc.1 [vertical] "" withlvl border_color "" true
      border_style " "
    let p2 := printlnP p1.1 [" " ++ l ++ " "] "" false color bg_color
      reset_all_colors style " "
    let p3 := printlnP p2.1 [pyRep " " (max_len - l.length)] "" false
      "" "" true "" " "
    let p4 := printlnP p3.1 [vertical] "\n" false border_color "" true
      border_style " "
    (p4.1, acc.2 ++ p1.2 ++ p2.2 ++ p3.2 ++ p4.2)) (r2.1, "")
  let r3 := printlnP rrows.1 [vertical_blank] "\n" withlvl border_color ""
    true border_style " "
  let r4 := printlnP r3.1 [bottom] "\n" withlvl border_color "" true
    border_style " "
  (r4.1, r1.2 ++ r2.2 ++ rrows.2 ++ r3.2 ++ r4.2)

/-- console.textbox: join the message, split on line breaks, compute the
maximum line length, select the border glyphs (raising the unknown-style
error for any border other than simpleline and doubleline before printing
anything), then print the frame. The middle component is the emitted text,
the last the raised exception if any. -/
def textbox (cfg : Config) (message : List String) (withlvl : Bool)
    (color bg_color : String) (reset_all_colors : Bool) (style : String)
    (sep : String) (border border_color border_style : String) :
    Config × String × Option ConsoleError :=
  let msg := __to_string message sep
  let lines := pySplitLines msg
  let max_len := (lines.map String.length).foldl max 0
  if border = "simpleline" then
    let top := Line_STL ++ pyRep Line_SH (max_len + 2) ++ Line_STR
    let bottom := Line_SBL ++ pyRep Line_SH (max_len + 2) ++ Line_SBR
    let vertical_blank := Line_SV ++ pyRep " " (max_len + 2) ++ Line_SV
    let res := textboxFrame cfg lines max_len top bottom vertical_blank
      Line_SV withlvl color bg_color reset_all_colors style border_color
      border_style
    (res.1, res.2, none)
  else if border = "doubleline" then
    let top := Line_DTL ++ pyRep Line_DH (max_len + 2) ++ Line_DTR
    let bottom := Line_DBL ++ pyRep Line_DH (max_len + 2) ++ Line_DBR
    let vertical_blank := Line_DV ++ pyRep " " (max_len + 2) ++ Line_DV
    let res := textboxFrame cfg lines max_len top bottom vertical_blank
      Line_DV withlvl color bg_color reset_all_colors style border_color
      border_style
    (res.1, res.2, none)
  else
    (cfg, "", some (.notDefinedStyle ("Unknown border style: " ++ border)))

/- ~~~~~~~~~~~~~~ Matrix rendering (console.py) ~~~~~~~~~~~~~~ -/

/-- The inner max_value helper of console.__max_len_value: cells whose text is
one of the absent-value markers count with the length of the nan substitute. -/
def pyMaxValue (nan_format : String) (max_len : Nat) (cell : String) : Nat :=
  let cellstr := if cell = "None" ∨ cell = "nan" ∨ cell = "NaN"
    then nan_format else cell
  max max_len cellstr.length

/-- console.__max_len_value over a matrix (rows that are lists). -/
def __max_len_value (matrix : List (List String)) (nan_format : String) : Nat :=
  matrix.foldl (fun acc row => row.foldl (pyMaxValue nan_format) acc) 0

/-- console.__max_len_value over a flat list (rows that are single values,
as happens for the header and index label lists). -/
def __max_len_value_list (values : List String) (nan_format : String) : Nat :=
  values.foldl (pyMaxValue nan_format) 0

/-- List indexing indexes[i]. Python raises IndexError past the end; the
rendering only reaches positions below the matrix length, which all claims
instantiate with label lists of matching length, so the default is inert. -/
def pyIndex (ls : List String) (i : Nat) : String := ls.getD i ""

/-- console.__print_matrix_header: the leading spacing, one centered, padded
cell per header label, then a line break. -/
def __print_matrix_header (cfg : Config) (header : List String)
    (len_index : Nat) (color_index : String) (extra_spacing : String)
    (withlvl : Bool) (max_len_value : Nat) (lvl_space : Nat) : Config × String :=
  let spaces := pyRep " " (len_index + lvl_space)
  let indentation := if withlvl then cfg.indentation_lvl else ""
  let (cfg, o1) := printlnP cfg [indentation ++ spaces ++ extra_spacing] ""
    false "" "" true "" " "
  let (cfg, oh) := header.foldl (fun acc h =>
    let (cfg, o) := printlnP acc.1 [" " ++ pyCenter h max_len_value ++ " "] ""
      false color_index "" true "" " "
    (cfg, acc.2 ++ o)) (cfg, "")
  let (cfg, onl) := new_lineP cfg
  (cfg, o1 ++ oh ++ onl)

/-- console.__print_matrix_row: indentation, index label, row-start border,
one centered padded cell per entry (absent-value markers replaced by the nan
substitute), then the row-end border with a line break. -/
def __print_matrix_row (cfg : Config) (row : List String) (max_len_value : Nat)
    (color nan_format color_style color_index end_line start_line index_name
     indentation : String) : Config × String :=
  let (cfg, o1) := printlnP cfg [indentation] "" false "" "" true "" " "
  let (cfg, o2) := printlnP cfg [index_name] "" false color_index "" true "" " "
  let (cfg, o3) := printlnP cfg [start_line] "" false color_style "" true "" " "
  let (cfg, oc) := row.foldl (fun acc cell =>
    let cellstr := if cell = "None" ∨ cell = "nan" ∨ cell = "NaN" ∨ cell = ""
      then nan_format else cell
    let (cfg, o) := printlnP acc.1 [" " ++ pyCenter cellstr max_len_value ++ " "]
      "" false color "" true "" " "
    (cfg, acc.2 ++ o)) (cfg, "")
  let (cfg, o4) := printlnP cfg [end_line] "\n" false color_style "" true "" " "
  (cfg, o1 ++ o2 ++ o3 ++ oc ++ o4)

/-- console.__print_matrix_base: optional header (only when the header list is
truthy, that is non-empty), optional top line, the enumerated data rows, and
an optional bottom line. A None top/bottom line and an empty one both print
nothing. -/
def __print_matrix_base (cfg : Config) (matrix : List (List String))
    (header indexes : Option (List String))
    (nan_format color color_index color_style : String)
    (max_len_value len_index : Nat) (withlvl : Bool)
    (start_line end_line : String) (top_line bottom_line : Option String)
    (level_space : Nat) : Config × String :=
  let indentation := if withlvl then cfg.indentation_lvl else ""
  let (cfg, ho) :=
    if header.getD [] ≠ [] then
      __print_matrix_header cfg (header.getD []) len_index color_index ""
        withlvl max_len_value level_space
    else (cfg, "")
  let (cfg, tout) := match top_line with
    | some t =>
        if t ≠ "" then printlnP cfg [t] "\n" false color_style "" true "" " "
        else (cfg, "")
    | none => (cfg, "")
  let (cfg, ro) := matrix.enum.foldl (fun acc p =>
    let (cfg, o) := __print_matrix_row acc.1 p.2 max_len_value color nan_format
      color_style color_index end_line start_line
      (match indexes with
       | some ls => pyRJust (pyIndex ls p.1) len_index
       | none => "") indentation
    (cfg, acc.2 ++ o)) (cfg, "")
  let (cfg, bo) := match bottom_line with
    | some b =>
        if b ≠ "" then printlnP cfg [b] "\n" false color_style "" true "" " "
        else (cfg, "")
    | none => (cfg, "")
  (cfg, ho ++ tout ++ ro ++ bo)

/-- console.__print_matrix_box_style, covering both box and semibox. Python
evaluates the keyword arguments of the __print_matrix_base call eagerly: for
semibox the bottom_line argument is the expression new_line(), so the blank
line is printed at that point — before __print_matrix_base emits anything —
and base receives None (the return value of new_line) as its bottom line. -/
def __print_matrix_box_style (cfg : Config) (matrix : List (List String))
    (header indexes : Option (List String))
    (nan_format color color_index color_style : String)
    (max_len_value len_index : Nat) (style : String) (withlvl : Bool) :
    Config × String :=
  let div := pyRep "-" ((matrix.headD []).length * max_len_value) ++
    pyRep "-" ((matrix.headD []).length * 2)
  let spaces := pyRep " " (len_index + 3)
  let indentation := if withlvl then cfg.indentation_lvl else ""
  let (cfg, pre) := if style = "box" then (cfg, "") else new_lineP cfg
  let bottom_line : Option String :=
    if style = "box" then some (indentation ++ spaces ++ div) else none
  let (cfg, out) := __print_matrix_base cfg matrix header indexes nan_format
    color color_index color_style max_len_value len_index withlvl " | "
    (if style = "box" then " | " else "")
    (some (indentation ++ spaces ++ div)) bottom_line 3
  (cfg, pre ++ out)

/-- console.__print_matrix_numpy_style. -/
def __print_matrix_numpy_style (cfg : Config) (matrix : List (List String))
    (header indexes : Option (List String))
    (nan_format color color_index color_style : String)
    (max_len_value len_index : Nat) (withlvl : Bool) : Config × String :=
  let indentation := if withlvl then cfg.indentation_lvl else ""
  let (cfg, ho) := match header with
    | some h => __print_matrix_header cfg h len_index color_index "   "
        withlvl max_len_value 3
    | none => (cfg, "")
  let max_rows := matrix.length
  let (cfg, ro) := matrix.enum.foldl (fun acc p =>
    let (cfg, pre) :=
      if p.1 = 0 then
        printlnP acc.1 [indentation, "[ "] "" false color_style "" true "" " "
      else
        printlnP acc.1 ["  ", indentation] "" false "" "" true "" " "
    let (cfg, o) := __print_matrix_row cfg p.2 max_len_value color nan_format
      color_style color_index
      (if max_rows ≠ p.1 + 1 then " ]" else " ]  ]") " [ "
      (match indexes with
       | some ls => pyRJust (pyIndex ls p.1) len_index
       | none => "") indentation
    (cfg, acc.2 ++ pre ++ o)) (cfg, "")
  (cfg, ho ++ ro)

/-- console.__print_matrix_without_style: base with empty borders and empty
top and bottom lines, and no extra level spacing. -/
def __print_matrix_without_style (cfg : Config) (matrix : List (List String))
    (header indexes : Option (List String))
    (nan_format color color_index color_style : String)
    (max_len_value len_index : Nat) (withlvl : Bool) : Config × String :=
  __print_matrix_base cfg matrix header indexes nan_format color color_index
    color_style max_len_value len_index withlvl "" "" (some "") (some "") 0

/-- console.__print_matrix_simpleline_style. -/
def __print_matrix_simpleline_style (cfg : Config) (matrix : List (List String))
    (header indexes : Option (List String))
    (nan_format color color_index color_style : String)
    (max_len_value len_index : Nat) (withlvl : Bool) : Config × String :=
  let div := pyRep Line_SH ((matrix.headD []).length * max_len_value +
    (matrix.headD []).length * 2 + 2)
  let spaces := pyRep " " (len_index + 1)
  let indentation := if withlvl then cfg.indentation_lvl else ""
  __print_matrix_base cfg matrix header indexes nan_format color color_index
    color_style max_len_value len_index withlvl
    (" " ++ Line_SV ++ " ") (" " ++ Line_SV ++ " ")
    (some (indentation ++ spaces ++ Line_STL ++ div ++ Line_STR))
    (some (indentation ++ spaces ++ Line_SBL ++ div ++ Line_SBR)) 3

/-- console.__print_matrix_doubleline_style. -/
def __print_matrix_doubleline_style (cfg : Config) (matrix : List (List String))
    (header indexes : Option (List String))
    (nan_format color color_index color_style : String)
    (max_len_value len_index : Nat) (withlvl : Bool) : Config × String :=
  let div := pyRep Line_DH ((matrix.headD []).length * max_len_value +
    (matrix.headD []).length * 2 + 2)
  let spaces := pyRep " " (len_index + 1)
  let indentation := if withlvl then cfg.indentation_lvl else ""
  __print_matrix_base cfg matrix header indexes nan_format color color_index
    color_style max_len_value len_index withlvl
    (" " ++ Line_DV ++ " ") (" " ++ Line_DV ++ " ")
    (some (indentation ++ spaces ++ Line_DTL ++ div ++ Line_DTR))
    (some (indentation ++ spaces ++ Line_DBL ++ div ++ Line_DBR)) 3

/-- The header and index-label arguments of console.print_matrix: the string
sentinel all, None, or an explicit list of labels. -/
inductive LabelSpec where
  | all
  | none
  | labels (ls : List String)
deriving DecidableEq

/-- console.print_matrix: resolve the all sentinels to position numbers,
compute the cell and index widths, and dispatch on the style, raising the
unknown-style error for any unrecognized style string before printing
anything. The middle component is the emitted text, the last the raised
exception if any. -/
def print_matrix (cfg : Config) (matrix : List (List String))
    (header indexes : LabelSpec) (style : Option String)
    (nan_format color color_index color_style : String) (withlvl : Bool) :
    Config × String × Option ConsoleError :=
  let indexes : Option (List String) := match indexes with
    | .all => some ((List.range matrix.length).map toString)
    | .none => Option.none
    | .labels ls => some ls
  let header : Option (List String) := match header with
    | .all => some ((List.range (matrix.headD []).length).map toString)
    | .none => Option.none
    | .labels ls => some ls
  let max_len_value := __max_len_value matrix nan_format
  let max_len_value := max max_len_value
    (__max_len_value_list (header.getD []) nan_format)
  let len_index := match indexes with
    | some ls => __max_len_value_list ls nan_format
    | Option.none => 0
  match style with
  | Option.none =>
      let (cfg, out) := __print_matrix_without_style cfg matrix header indexes
        nan_format color color_index color_style max_len_value len_index withlvl
      (cfg, out, Option.none)
  | some s =>
      if s = "box" ∨ s = "semibox" then
        let (cfg, out) := __print_matrix_box_style cfg matrix header indexes
          nan_format color color_index color_style max_len_value len_index s
          withlvl
        (cfg, out, Option.none)
      else if s = "numpy" ∨ s = "np" then
        let (cfg, out) := __print_matrix_numpy_style cfg matrix header indexes
          nan_format color color_index color_style max_len_value len_index
          withlvl
        (cfg, out, Option.none)
      else if s = "simpleline" ∨ s = "sl" ∨ s = "line" then
        let (cfg, out) := __print_matrix_simpleline_style cfg matrix header
          indexes nan_format color color_index color_style max_len_value
          len_index withlvl
        (cfg, out, Option.none)
      else if s = "doubleline" ∨ s = "dl" then
        let (cfg, out) := __print_matrix_doubleline_style cfg matrix header
          indexes nan_format color color_index color_style max_len_value
          len_index withlvl
        (cfg, out, Option.none)
      else
        (cfg, "", some (.notDefinedStyle ("Unknown style: " ++ s)))

/-- The engine configuration right after a default explicit initialization:
all defaults with the initialized flag set. -/
def cfgInit : Config := { is_init := true }

/- ~~~~~~~~~~~~~~ Block call sequences ~~~~~~~~~~~~~~ -/

/-- One console block operation: a start_block or an end_block call with its
title parts and formatting arguments. -/
inductive BlockOp where
  | start (message : List String) (color bg_color : String)
  | stop (message : List String) (color bg_color style : String)

/-- Run a sequence of block operations against the configuration (only the
configuration state is tracked here). -/
def runBlocks (l : Lang) (cfg : Config) : List BlockOp → Config
  | [] => cfg
  | .start m c b :: rest => runBlocks l (start_block l cfg m c b).1 rest
  | .stop m c b s :: rest => runBlocks l (end_block l cfg m c b s).1 rest

/-- The properly nested sequences of start_block/end_block pairs. -/
inductive Balanced : List BlockOp → Prop
  | nil : Balanced []
  | wrap (m : List String) (c b : String) (m2 : List String)
      (c2 b2 s2 : String) {xs ys : List BlockOp} :
      Balanced xs → Balanced ys →
      Balanced (.start m c b :: xs ++ .stop m2 c2 b2 s2 :: ys)

/- ~~~~~~~~~~~~~~ Supporting lemmas ~~~~~~~~~~~~~~ -/

theorem _colorize_eq_ok (text color bg_color style : String)
    (reset_console_colors : Bool) :
    _colorize text color bg_color style reset_console_colors =
      .ok (_colorizeP text color bg_color style reset_console_colors) := by
  unfold _colorize _colorizeP colorTextContains colorTextGetItem
    colorBackgroundContains colorBackgroundGetItem styleTextContains
    styleTextGetItem
  rcases h1 : lookupColor color with _ | c <;>
    rcases h2 : lookupBackground bg_color with _ | b <;>
    rcases h3 : lookupStyle style with _ | s <;> simp

theorem println_eq_printlnP (cfg : Config) (message : List String)
    (endl : String) (withlvl : Bool) (color bg_color : String)
    (reset_all_colors : Bool) (style : String) (sep : String) :
    println cfg message endl withlvl color bg_color reset_all_colors style sep =
      ((printlnP cfg message endl withlvl color bg_color reset_all_colors
          style sep).1,
       .ok (printlnP cfg message endl withlvl color bg_color reset_all_colors
          style sep).2) := by
  simp only [println, printlnP, _colorize_eq_ok]

theorem str_append_assoc (a b c : String) : a ++ b ++ c = a ++ (b ++ c) := by
  apply String.ext
  simp [String.data_append]

theorem lazyInit_of_init {cfg : Config} (h : cfg.is_init = true) :
    cfg.lazyInit = cfg := by
  simp [Config.lazyInit, h]

theorem lazyStart_of_started {cfg : FacadeConfig}
    (h : cfg.is_start_console = true) : cfg.lazyStart = cfg := by
  simp [FacadeConfig.lazyStart, h]

theorem lookupColor_eq_none {color : String}
    (h : colorTextContains color = false) : lookupColor color = none := by
  cases hv : lookupColor color with
  | none => rfl
  | some v => rw [colorTextContains, hv] at h; simp at h

theorem lookupBackground_eq_none {background : String}
    (h : colorBackgroundContains background = false) :
    lookupBackground background = none := by
  cases hv : lookupBackground background with
  | none => rfl
  | some v => rw [colorBackgroundContains, hv] at h; simp at h

theorem lookupStyle_eq_none {style : String}
    (h : styleTextContains style = false) : lookupStyle style = none := by
  cases hv : lookupStyle style with
  | none => rfl
  | some v => rw [styleTextContains, hv] at h; simp at h

/- ~~~~~~~~~~~~~~ Claim C9 ~~~~~~~~~~~~~~ -/

/-- C9: the console engine's init invokes the screen-clear command exactly
twice when clear is true (once inside _ConsoleConfig.init and once in the
module-level init itself), zero times when clear is false, and the resulting
configuration is identical in both cases. -/
theorem init_clear_screen_count (cfg : Config) (indentation_type : String)
    (indentation_size : Int) (autoreset_colors : Bool) :
    (init cfg true indentation_type indentation_size autoreset_colors).2 = 2 ∧
    (init cfg false indentation_type indentation_size autoreset_colors).2 = 0 ∧
    (init cfg true indentation_type indentation_size autoreset_colors).1 =
      (init cfg false indentation_type indentation_size autoreset_colors).1 := by
  refine ⟨rfl, rfl, rfl⟩

/- ~~~~~~~~~~~~~~ Claim C10 ~~~~~~~~~~~~~~ -/

/-- C10: with a positive indentation size, del_lvl (both the engine's and the
facade's) is total: it replaces the indentation by its prefix that drops the
last min(size, length) characters, and whenever the accumulated indentation
holds at most indentation_size characters (in particular when it is already
empty) the result is exactly the empty string — never an error state. -/
theorem del_lvl_total_truncation (cfg : Config) (fcfg : FacadeConfig)
    (hs : 1 ≤ cfg.indentantion_size) (hf : 1 ≤ fcfg.indentantion_size) :
    ((del_lvl cfg).indentation_lvl =
      ⟨cfg.indentation_lvl.data.take
        (cfg.indentation_lvl.length - cfg.indentantion_size.toNat)⟩ ∧
     (del_lvl cfg).indentation_lvl.length =
      cfg.indentation_lvl.length -
        min cfg.indentantion_size.toNat cfg.indentation_lvl.length ∧
     ((cfg.indentation_lvl.length : Int) ≤ cfg.indentantion_size →
        (del_lvl cfg).indentation_lvl = "")) ∧
    ((facade_del_lvl fcfg).indentation_lvl =
      ⟨fcfg.indentation_lvl.data.take
        (fcfg.indentation_lvl.length - fcfg.indentantion_size.toNat)⟩ ∧
     (facade_del_lvl fcfg).indentation_lvl.length =
      fcfg.indentation_lvl.length -
        min fcfg.indentantion_size.toNat fcfg.indentation_lvl.length ∧
     ((fcfg.indentation_lvl.length : Int) ≤ fcfg.indentantion_size →
        (facade_del_lvl fcfg).indentation_lvl = "")) := by
  have hpos : 0 < cfg.indentantion_size := hs
  have hfpos : 0 < fcfg.indentantion_size := hf
  refine ⟨⟨?_, ?_, ?_⟩, ?_, ?_, ?_⟩
  · simp [del_lvl, pyTakeToNeg, hpos]
  · simp only [del_lvl, pyTakeToNeg, hpos, if_pos, String.length_mk,
      List.length_take]
    have hdl : cfg.indentation_lvl.length = cfg.indentation_lvl.data.length :=
      rfl
    omega
  · intro hle
    have : cfg.indentation_lvl.length ≤ cfg.indentantion_size.toNat := by omega
    simp [del_lvl, pyTakeToNeg, hpos, Nat.sub_eq_zero_of_le this]
  · simp [facade_del_lvl, pyTakeToNeg, hfpos]
  · simp only [facade_del_lvl, pyTakeToNeg, hfpos, if_pos, String.length_mk,
      List.length_take]
    have hdl : fcfg.indentation_lvl.length =
        fcfg.indentation_lvl.data.length := rfl
    omega
  · intro hle
    have : fcfg.indentation_lvl.length ≤ fcfg.indentantion_size.toNat := by
      omega
    simp [facade_del_lvl, pyTakeToNeg, hfpos, Nat.sub_eq_zero_of_le this]

/-- Witness for C10 at a concrete configuration: size 2, indentation of one
character, which truncates to the empty string. -/
theorem del_lvl_total_truncation_witness :
    (((del_lvl { cfgInit with indentation_lvl := " " }).indentation_lvl =
      ⟨(" " : String).data.take ((" " : String).length - (2 : Int).toNat)⟩ ∧
     (del_lvl { cfgInit with indentation_lvl := " " }).indentation_lvl.length =
      (" " : String).length - min (2 : Int).toNat (" " : String).length ∧
     (((" " : String).length : Int) ≤ 2 →
        (del_lvl { cfgInit with indentation_lvl := " " }).indentation_lvl =
          "")) ∧
    ((facade_del_lvl {}).indentation_lvl =
      ⟨("" : String).data.take (("" : String).length - (2 : Int).toNat)⟩ ∧
     (facade_del_lvl {}).indentation_lvl.length =
      ("" : String).length - min (2 : Int).toNat ("" : String).length ∧
     ((("" : String).length : Int) ≤ 2 →
        (facade_del_lvl {}).indentation_lvl = ""))) :=
  del_lvl_total_truncation { cfgInit with indentation_lvl := " " } {}
    (by decide) (by decide)

/- ~~~~~~~~~~~~~~ Claim C1 ~~~~~~~~~~~~~~ -/

/-- C1 counterexample: println with the unrecognized color ULTRAVIOLET does
not raise the unknown-color error — it returns ok with the text printed
unformatted (just the reset sequence appended), so the claimed error carrying
ULTRAVIOLET is never produced. -/
theorem println_ultraviolet_returns_ok :
    (println cfgInit ["x"] "\n" true "ULTRAVIOLET" "" true "" " ").2 =
      .ok ("x" ++ resetSeq ++ "\n") ∧
    ((println cfgInit ["x"] "\n" true "ULTRAVIOLET" "" true "" " ").2).isOk =
      true :=
  ⟨rfl, rfl⟩

/-- C1 amended: when the color, background and style names are all outside
the recognized tables, the engine's println silently defaults every lookup to
no formatting and raises nothing — it returns ok with the bare joined message
(indented when requested, reset appended when requested); only a direct
ColorText item access raises the unknown-color error carrying the exact
offending name. -/
theorem colorize_unknown_names_no_error (cfg : Config) (message : List String)
    (endl : String) (withlvl : Bool) (color bg_color : String)
    (reset_all_colors : Bool) (style : String) (sep : String)
    (hc : colorTextContains color = false)
    (hb : colorBackgroundContains bg_color = false)
    (hs : styleTextContains style = false) :
    (println cfg message endl withlvl color bg_color reset_all_colors style
        sep).2 =
      .ok ((if withlvl then cfg.lazyInit.indentation_lvl ++
              __to_string message sep else __to_string message sep) ++
           (if reset_all_colors then resetSeq else "") ++ endl) ∧
    colorTextGetItem color = .error (.colorTextError color) := by
  have hc' := lookupColor_eq_none hc
  have hb' := lookupBackground_eq_none hb
  have hs' := lookupStyle_eq_none hs
  constructor
  · simp only [println_eq_printlnP, printlnP, _colorizeP, hc', hb', hs',
      Option.getD_none]
    cases withlvl <;> cases reset_all_colors <;>
      simp [str_append_assoc, String.ext_iff, String.data_append]
  · simp [colorTextGetItem, hc']

/-- Witness for C1 at the concrete unrecognized names of the claim. -/
theorem colorize_unknown_names_no_error_witness :
    (println cfgInit ["hello"] "\n" true "ULTRAVIOLET2" "BG_ULTRAVIOLET"
        true "SPARKLE" " ").2 =
      .ok ((if true then cfgInit.lazyInit.indentation_lvl ++
              __to_string ["hello"] " " else __to_string ["hello"] " ") ++
           (if true then resetSeq else "") ++ "\n") ∧
    colorTextGetItem "ULTRAVIOLET2" =
      .error (.colorTextError "ULTRAVIOLET2") :=
  colorize_unknown_names_no_error cfgInit ["hello"] "\n" true "ULTRAVIOLET2"
    "BG_ULTRAVIOLET" true "SPARKLE" " " (by decide) (by decide) (by decide)

/- ~~~~~~~~~~~~~~ Claim C2 ~~~~~~~~~~~~~~ -/

theorem str_empty_append (s : String) : "" ++ s = s := rfl

theorem str_append_empty (s : String) : s ++ "" = s := by
  apply String.ext
  rw [String.data_append]
  exact List.append_nil _

/-- C2 counterexample: with autoreset_colors configured true, the Console
Engine's println called with reset_all_colors false emits the bare message
with no reset sequence — the claim requires the reset sequence appended. -/
theorem println_autoreset_not_consulted :
    (println { cfgInit with autoreset_colors := true } ["x"] "\n" true "" ""
        false "" " ").2 = .ok ("x" ++ "\n") ∧
    ("x" ++ "\n" : String) ≠ "x" ++ resetSeq ++ "\n" :=
  ⟨rfl, by decide⟩

/-- C2 amended: the reset decision differs between the two implementations.
The Console Engine's println appends the shared reset sequence exactly when
its reset_all_colors argument is true — the configuration's autoreset_colors
flag is never consulted. The Legacy Facade's println appends it exactly when
reset_all_colors OR the configuration's autoreset_colors holds. -/
theorem println_reset_semantics (cfg : Config) (fcfg : FacadeConfig)
    (message : List String) (endl : String) (withlvl : Bool)
    (color bg_color : String) (reset_all_colors : Bool) (style sep : String)
    (ca cb cs : String)
    (hstart : fcfg.is_start_console = true)
    (hc : get_color color = .ok ca) (hb : get_background bg_color = .ok cb)
    (hs : get_style style = .ok cs) :
    (println cfg message endl withlvl color bg_color reset_all_colors style
        sep).2 =
      .ok ((lookupColor color).getD "" ++ (lookupBackground bg_color).getD ""
            ++ (lookupStyle style).getD "" ++
            (if withlvl then cfg.lazyInit.indentation_lvl ++
               __to_string message sep else __to_string message sep) ++
           (if reset_all_colors then resetSeq else "") ++ endl) ∧
    (facadePrintln fcfg message endl withlvl color bg_color reset_all_colors
        style sep).2 =
      .ok (ca ++ cb ++ cs ++
            (if withlvl then fcfg.indentation_lvl ++ __to_string message sep
             else __to_string message sep) ++
           (if reset_all_colors || fcfg.autoreset_colors then resetSeq
            else "") ++ endl) := by
  have hne : reset_colors_term ≠ "" := by decide
  have hne2 : ¬(resetSeq = "") := by decide
  constructor
  · simp only [println_eq_printlnP, printlnP, _colorizeP]
    cases reset_all_colors <;>
      simp [str_append_empty, str_append_assoc]
  · simp only [facadePrintln, lazyStart_of_started hstart, facade_colorize,
      hc, hb, hs]
    cases hra : (reset_all_colors || fcfg.autoreset_colors) <;>
      simp [hra, hne, hne2, reset_colors_term, str_append_empty,
        str_append_assoc]

/-- Witness for C2 at a concrete initialized facade configuration and the
color RED. -/
theorem println_reset_semantics_witness :
    (println cfgInit ["x"] "\n" true "RED" "" false "" " ").2 =
      .ok ((lookupColor "RED").getD "" ++ (lookupBackground "").getD ""
            ++ (lookupStyle "").getD "" ++
            (if true then cfgInit.lazyInit.indentation_lvl ++
               __to_string ["x"] " " else __to_string ["x"] " ") ++
           (if false then resetSeq else "") ++ "\n") ∧
    (facadePrintln { is_start_console := true } ["x"] "\n" true "RED" ""
        false "" " ").2 =
      .ok (ansiSeq 31 ++ "" ++ "" ++
            (if true then FacadeConfig.indentation_lvl
               { is_start_console := true } ++ __to_string ["x"] " "
             else __to_string ["x"] " ") ++
           (if false || FacadeConfig.autoreset_colors
               { is_start_console := true } then resetSeq
            else "") ++ "\n") :=
  println_reset_semantics cfgInit { is_start_console := true } ["x"] "\n"
    true "RED" "" false "" " " (ansiSeq 31) "" "" rfl rfl rfl rfl

/- ~~~~~~~~~~~~~~ Claim C3 ~~~~~~~~~~~~~~ -/

theorem append_newline_ne_empty (a x : String) : a ++ (x ++ "\n") ≠ "" := by
  intro h
  have hl := congrArg String.length h
  rw [String.length_append, String.length_append] at hl
  have he1 : ("\n" : String).length = 1 := rfl
  have he0 : ("" : String).length = 0 := rfl
  rw [he1, he0] at hl
  omega

theorem textboxFrame_ne_empty (cfg : Config) (lines : List String)
    (max_len : Nat) (top bottom vertical_blank vertical : String)
    (withlvl : Bool) (color bg_color : String) (reset_all_colors : Bool)
    (style border_color border_style : String) :
    (textboxFrame cfg lines max_len top bottom vertical_blank vertical
      withlvl color bg_color reset_all_colors style border_color
      border_style).2 ≠ "" := by
  apply append_newline_ne_empty

theorem textbox_unknown_border (cfg : Config) (message : List String)
    (withlvl : Bool) (color bg_color : String) (reset_all_colors : Bool)
    (style sep border border_color border_style : String)
    (h1 : border ≠ "simpleline") (h2 : border ≠ "doubleline") :
    textbox cfg message withlvl color bg_color reset_all_colors style sep
        border border_color border_style =
      (cfg, "", some (.notDefinedStyle ("Unknown border style: " ++
        border))) := by
  simp only [textbox, h1, h2, if_false, ite_false]

/-- C3 counterexample: textbox with the unrecognized border dashed raises
ErrorNotDefinedStyle — the unknown-style variant, whose carried string is the
whole message Unknown border style: dashed — not the ErrorNotDefinedBorderStyle
variant carrying the bare border name. -/
theorem textbox_unknown_border_error_value :
    (textbox cfgInit ["hi"] true "" "" true "" " " "dashed" "" "").2.2 =
      some (.notDefinedStyle ("Unknown border style: " ++ "dashed")) ∧
    ConsoleError.notDefinedStyle ("Unknown border style: " ++ "dashed") ≠
      ConsoleError.notDefinedBorderStyle "dashed" :=
  ⟨rfl, by decide⟩

/-- C3 amended: for every border other than simpleline and doubleline,
textbox raises ErrorNotDefinedStyle (the unknown-style error, carrying the
string Unknown border style: followed by the offending border name) before
printing any part of the frame (the emitted text is empty); for the two
recognized borders it raises nothing and prints a non-empty frame. -/
theorem textbox_border_dispatch (cfg : Config) (message : List String)
    (withlvl : Bool) (color bg_color : String) (reset_all_colors : Bool)
    (style sep border border_color border_style : String)
    (h1 : border ≠ "simpleline") (h2 : border ≠ "doubleline") :
    textbox cfg message withlvl color bg_color reset_all_colors style sep
        border border_color border_style =
      (cfg, "", some (.notDefinedStyle ("Unknown border style: " ++
        border))) ∧
    (textbox cfg message withlvl color bg_color reset_all_colors style sep
        "simpleline" border_color border_style).2.2 = none ∧
    (textbox cfg message withlvl color bg_color reset_all_colors style sep
        "simpleline" border_color border_style).2.1 ≠ "" ∧
    (textbox cfg message withlvl color bg_color reset_all_colors style sep
        "doubleline" border_color border_style).2.2 = none ∧
    (textbox cfg message withlvl color bg_color reset_all_colors style sep
        "doubleline" border_color border_style).2.1 ≠ "" := by
  refine ⟨textbox_unknown_border cfg message withlvl color bg_color
      reset_all_colors style sep border border_color border_style h1 h2,
    rfl, ?_, rfl, ?_⟩
  · apply textboxFrame_ne_empty
  · apply textboxFrame_ne_empty

/-- Witness for C3 at the concrete border dashed. -/
theorem textbox_border_dispatch_witness :
    textbox cfgInit ["hi"] true "" "" true "" " " "dashed" "" "" =
      (cfgInit, "", some (.notDefinedStyle ("Unknown border style: " ++
        "dashed"))) ∧
    (textbox cfgInit ["hi"] true "" "" true "" " " "simpleline" ""
        "").2.2 = none ∧
    (textbox cfgInit ["hi"] true "" "" true "" " " "simpleline" ""
        "").2.1 ≠ "" ∧
    (textbox cfgInit ["hi"] true "" "" true "" " " "doubleline" ""
        "").2.2 = none ∧
    (textbox cfgInit ["hi"] true "" "" true "" " " "doubleline" ""
        "").2.1 ≠ "" :=
  textbox_border_dispatch cfgInit ["hi"] true "" "" true "" " " "dashed" ""
    "" (by decide) (by decide)

/- ~~~~~~~~~~~~~~ Claim C4 ~~~~~~~~~~~~~~ -/

/-- C4 counterexample: print_matrix with the style triangle raises the
unknown-style error, but the error value carries the whole message
Unknown style: triangle, not exactly the string triangle. -/
theorem print_matrix_triangle_error_value :
    (print_matrix cfgInit [["1"]] .none .none (some "triangle") "" "" "" ""
        true).2.2 =
      some (.notDefinedStyle ("Unknown style: " ++ "triangle")) ∧
    ("Unknown style: triangle" : String) ≠ "triangle" :=
  ⟨rfl, by decide⟩

set_option maxHeartbeats 1600000 in
/-- C4 amended: for every style string outside the ten recognized values,
print_matrix raises ErrorNotDefinedStyle before printing anything, carrying
the string Unknown style: followed by the offending style name — so the
localized English rendering interpolates that whole string (not the bare
name) into the message template. -/
theorem print_matrix_unknown_style_error (cfg : Config)
    (matrix : List (List String)) (header indexes : LabelSpec)
    (s nan_format color color_index color_style : String) (withlvl : Bool)
    (h1 : s ≠ "box") (h2 : s ≠ "semibox") (h3 : s ≠ "numpy") (h4 : s ≠ "np")
    (h5 : s ≠ "simpleline") (h6 : s ≠ "sl") (h7 : s ≠ "line")
    (h8 : s ≠ "doubleline") (h9 : s ≠ "dl") :
    print_matrix cfg matrix header indexes (some s) nan_format color
        color_index color_style withlvl =
      (cfg, "", some (.notDefinedStyle ("Unknown style: " ++ s))) ∧
    errorNotDefinedStyleMsgEn ("Unknown style: " ++ s) =
      "The style \x22Unknown style: " ++ s ++
        "\x22 is not defined in the consoleverse" := by
  have e1 : ¬(s = "box" ∨ s = "semibox") := by simp [h1, h2]
  have e2 : ¬(s = "numpy" ∨ s = "np") := by simp [h3, h4]
  have e3 : ¬(s = "simpleline" ∨ s = "sl" ∨ s = "line") := by
    simp [h5, h6, h7]
  have e4 : ¬(s = "doubleline" ∨ s = "dl") := by simp [h8, h9]
  constructor
  · simp only [print_matrix, e1, e2, e3, e4, if_false, ite_false]
  · unfold errorNotDefinedStyleMsgEn
    rw [← str_append_assoc "The style \x22" "Unknown style: " s]
    rfl

/-- Witness for C4 at the style triangle of the claim. -/
theorem print_matrix_unknown_style_error_witness :
    print_matrix cfgInit [["1"]] .all .all (some "triangle") "" "" "" ""
        true =
      (cfgInit, "", some (.notDefinedStyle ("Unknown style: " ++ "triangle"))) ∧
    errorNotDefinedStyleMsgEn ("Unknown style: " ++ "triangle") =
      "The style \x22Unknown style: " ++ "triangle" ++
        "\x22 is not defined in the consoleverse" :=
  print_matrix_unknown_style_error cfgInit [["1"]] .all .all "triangle" "" ""
    "" "" true (by decide) (by decide) (by decide) (by decide) (by decide)
    (by decide) (by decide) (by decide) (by decide)

/- ~~~~~~~~~~~~~~ Claim C5 ~~~~~~~~~~~~~~ -/

/-- C5: evaluation of console.line at its default arguments (size 30, unit
pattern of two dashes and a space) on an initialized configuration. The built
rule ends in a space, yet the emitted text keeps that trailing space: the
source compares the slice line[:-1] — the whole string except its last
character — with a single space instead of examining the final character, so
the trim never fires for this input. -/
theorem line_default_keeps_trailing_space :
    (line cfgInit 30 "-- " "" "" "").2 =
      pyRep "-- " 30 ++ resetSeq ++ "\n" ++ (resetSeq ++ "\n") ∧
    (pyRep "-- " 30).data.getLast? = some ' ' :=
  ⟨rfl, rfl⟩

/- ~~~~~~~~~~~~~~ Claim C6 ~~~~~~~~~~~~~~ -/

/-- C6: evaluation of print_matrix on the one-cell matrix at the box and
semibox styles with an initialized configuration. The semibox rendering
emits the blank line (the output of new_line, evaluated eagerly as the
bottom_line argument) before the top divider and the data row, and emits
nothing after the last data row, while box closes with the bottom divider. -/
theorem semibox_blank_line_emitted_first :
    (print_matrix cfgInit [["1"]] .none .none (some "semibox") "" "" "" ""
        true).2.1 =
      (resetSeq ++ "\n") ++
      ("   ---" ++ resetSeq ++ "\n" ++
       (resetSeq ++ resetSeq ++ (" | " ++ resetSeq) ++ (" 1 " ++ resetSeq) ++
        (resetSeq ++ "\n"))) ∧
    (print_matrix cfgInit [["1"]] .none .none (some "box") "" "" "" ""
        true).2.1 =
      "   ---" ++ resetSeq ++ "\n" ++
      (resetSeq ++ resetSeq ++ (" | " ++ resetSeq) ++ (" 1 " ++ resetSeq) ++
       (" | " ++ resetSeq ++ "\n")) ++
      ("   ---" ++ resetSeq ++ "\n") :=
  ⟨rfl, rfl⟩

/- ~~~~~~~~~~~~~~ Claim C7 ~~~~~~~~~~~~~~ -/

theorem int_of_rat_eq_floor (q : ℚ) : int_of_rat q = ⌊q⌋ := by
  rw [int_of_rat, Int.fdiv_eq_ediv _ (Int.natCast_nonneg _), Rat.floor_def]

/-- C7: under the preconditions (progress within the unit interval,
non-negative width, single-character bar, start and end glyphs) progress_bar
prints startGlyph, the bar glyph repeated floor(progress times width) times,
the spacing glyph repeated width minus that count times, the end glyph, and,
when requested, the percentage suffix with floor(progress times 100) — all
through println with default options (current indentation before, reset
sequence and line break after); and every violation of the preconditions
yields a ValueError invalid-input failure with the configuration untouched
and no output produced. -/
theorem progress_bar_spec (cfg : Config) (progress : ℚ) (width : Int)
    (bar start_bar end_bar spacing : String) (pct : Bool)
    (h0 : 0 ≤ progress) (h1 : progress ≤ 1) (hw : 0 ≤ width)
    (hb : bar.length = 1) (hsb : start_bar.length = 1)
    (heb : end_bar.length = 1) :
    (progress_bar cfg progress width bar start_bar end_bar spacing pct).2 =
      .ok (cfg.lazyInit.indentation_lvl ++
        (start_bar ++ pyRepZ bar (int_of_rat (progress * width)) ++
         pyRepZ spacing (width - int_of_rat (progress * width)) ++ end_bar ++
         (if pct then " (" ++ toString (int_of_rat (progress * 100)) ++ "%)"
          else "")) ++ resetSeq ++ "\n") ∧
    int_of_rat (progress * width) = ⌊progress * (width : ℚ)⌋ ∧
    int_of_rat (progress * 100) = ⌊progress * (100 : ℚ)⌋ ∧
    (∀ (c2 : Config) (p : ℚ) (w : Int) (b sb eb sp : String) (shw : Bool),
      (p < 0 ∨ 1 < p ∨ w < 0 ∨ b.length ≠ 1 ∨ sb.length ≠ 1 ∨
        eb.length ≠ 1) →
      ∃ m, progress_bar c2 p w b sb eb sp shw =
        (c2, .error (.valueError m))) := by
  have e1 : ¬(progress < 0 ∨ 1 < progress) :=
    not_or.mpr ⟨not_lt.mpr h0, not_lt.mpr h1⟩
  have e2 : ¬(width < 0) := not_lt.mpr hw
  refine ⟨?_, int_of_rat_eq_floor _, int_of_rat_eq_floor _, ?_⟩
  · have hint : ∀ x : String, String.intercalate " " [x] = x := fun _ => rfl
    have hc0 : (lookupColor "").getD "" = "" := rfl
    have hb0 : (lookupBackground "").getD "" = "" := rfl
    have hs0 : (lookupStyle "").getD "" = "" := rfl
    simp only [progress_bar, e1, e2, hb, hsb, heb, if_false, ite_false,
      if_neg, printlnP, _colorizeP, __to_string, hint, hc0, hb0, hs0]
    simp [str_empty_append, str_append_empty, str_append_assoc]
  · intro c2 p w b sb eb sp shw hviol
    by_cases hA : p < 0 ∨ 1 < p
    · exact ⟨"The progress must be between 0 and 1",
        by simp [progress_bar, hA]⟩
    · by_cases hB : w < 0
      · exact ⟨"The width must be greater than 0",
          by simp [progress_bar, hA, hB]⟩
      · by_cases hC : b.length ≠ 1
        · exact ⟨"The bar must be a single character",
            by simp [progress_bar, hA, hB, hC]⟩
        · by_cases hD : sb.length ≠ 1
          · exact ⟨"The start_bar must be a single character",
              by simp [progress_bar, hA, hB, hC, hD]⟩
          · have hE : eb.length ≠ 1 := by tauto
            exact ⟨"The end_bar must be a single character",
              by simp [progress_bar, hA, hB, hC, hD, hE]⟩

/-- Witness for C7 at progress one half, width 10, default glyphs. -/
theorem progress_bar_spec_witness :
    (progress_bar cfgInit (1/2) 10 "#" "[" "]" "." true).2 =
      .ok (cfgInit.lazyInit.indentation_lvl ++
        ("[" ++ pyRepZ "#" (int_of_rat ((1/2 : ℚ) * (10 : Int))) ++
         pyRepZ "." ((10 : Int) - int_of_rat ((1/2 : ℚ) * (10 : Int))) ++ "]" ++
         (if true then " (" ++ toString (int_of_rat ((1/2 : ℚ) * 100)) ++ "%)"
          else "")) ++ resetSeq ++ "\n") ∧
    (progress_bar cfgInit (1/2) 10 "#" "[" "]" "." true).2 =
      .ok "[#####.....] (50%)\x1b[0m\n" := by
  have h := progress_bar_spec cfgInit (1/2) 10 "#" "[" "]" "." true
    (by norm_num) (by norm_num) (by norm_num) rfl rfl rfl
  have i1 : int_of_rat ((1/2 : ℚ) * ((10 : Int) : ℚ)) = 5 := by
    rw [int_of_rat_eq_floor]
    norm_num
  have i2 : int_of_rat ((1/2 : ℚ) * (100 : ℚ)) = 50 := by
    rw [int_of_rat_eq_floor]
    norm_num
  refine ⟨h.1, ?_⟩
  rw [h.1, i1, i2]
  rfl

/- ~~~~~~~~~~~~~~ Claim C8 ~~~~~~~~~~~~~~ -/

theorem start_block_state (l : Lang) (cfg : Config) (m : List String)
    (c b : String) : (start_block l cfg m c b).1 = add_lvl cfg.lazyInit := rfl

theorem end_block_state (l : Lang) (cfg : Config) (m : List String)
    (c b s : String) :
    (end_block l cfg m c b s).1 = ((del_lvl cfg).lazyInit).lazyInit := rfl

theorem pyRep_length (s : String) (n : Nat) :
    (pyRep s n).length = n * s.length := by
  induction n with
  | zero => simp [pyRep]
  | succ k ih =>
      show (s ++ pyRep s k).length = _
      rw [String.length_append, ih]
      ring

theorem pyTakeToNeg_append_cancel (a b : String) (n : Int) (h0 : 0 < n)
    (hb : b.length = n.toNat) : pyTakeToNeg (a ++ b) n = a := by
  unfold pyTakeToNeg
  rw [if_pos h0]
  apply String.ext
  show ((a ++ b).data.take ((a ++ b).length - n.toNat)) = a.data
  rw [String.data_append, String.length_append, hb]
  have h1 : a.length + n.toNat - n.toNat = a.length := by omega
  rw [h1]
  have h2 : a.length = a.data.length := rfl
  rw [h2]
  exact List.take_left _ _

theorem del_lvl_add_lvl (cfg : Config)
    (hty : cfg.indentation_type.length = 1)
    (hsz : 1 ≤ cfg.indentantion_size) : del_lvl (add_lvl cfg) = cfg := by
  have hpos : (0 : Int) < cfg.indentantion_size := by omega
  have hlen : (pyRepZ cfg.indentation_type cfg.indentantion_size).length =
      cfg.indentantion_size.toNat := by
    rw [pyRepZ, pyRep_length, hty, Nat.mul_one]
  have key : pyTakeToNeg (cfg.indentation_lvl ++
      pyRepZ cfg.indentation_type cfg.indentantion_size)
      cfg.indentantion_size = cfg.indentation_lvl :=
    pyTakeToNeg_append_cancel _ _ _ hpos hlen
  simp only [del_lvl, add_lvl]
  rw [key]

theorem runBlocks_append (l : Lang) (cfg : Config) (xs ys : List BlockOp) :
    runBlocks l cfg (xs ++ ys) = runBlocks l (runBlocks l cfg xs) ys := by
  induction xs generalizing cfg with
  | nil => rfl
  | cons x xs ih => cases x <;> simp [runBlocks, ih]

theorem runBlocks_balanced (l : Lang) (cfg : Config) (w : List BlockOp)
    (hw : Balanced w) (hinit : cfg.is_init = true)
    (hty : cfg.indentation_type.length = 1)
    (hsz : 1 ≤ cfg.indentantion_size) :
    runBlocks l cfg w = cfg := by
  induction hw generalizing cfg with
  | nil => rfl
  | wrap m c b m2 c2 b2 s2 hxs hys ihx ihy =>
      show runBlocks l cfg (.start m c b :: (_ ++ .stop m2 c2 b2 s2 :: _)) =
        cfg
      rw [runBlocks, start_block_state, lazyInit_of_init hinit,
        runBlocks_append]
      have hxinit : (add_lvl cfg).is_init = true := hinit
      have hxty : (add_lvl cfg).indentation_type.length = 1 := hty
      have hxsz : 1 ≤ (add_lvl cfg).indentantion_size := hsz
      rw [ihx (add_lvl cfg) hxinit hxty hxsz]
      rw [runBlocks, end_block_state, del_lvl_add_lvl cfg hty hsz,
        lazyInit_of_init hinit, lazyInit_of_init hinit]
      exact ihy cfg hinit hty hsz

/-- C8: from an initialized configuration whose indentation unit is a single
character (and whose indentation size is the positive integer the data model
requires), every properly nested sequence of start_block/end_block pairs
leaves the accumulated indentation — indeed the whole configuration —
unchanged; each start_block appends exactly one level (the unit repeated
indentation-size times) and each end_block strips the slice of
indentation-size characters. -/
theorem block_indentation_symmetry (l : Lang) (cfg : Config)
    (w : List BlockOp) (m : List String) (c b : String) (m2 : List String)
    (c2 b2 s2 : String)
    (hinit : cfg.is_init = true) (hty : cfg.indentation_type.length = 1)
    (hsz : 1 ≤ cfg.indentantion_size) (hw : Balanced w) :
    runBlocks l cfg w = cfg ∧
    (start_block l cfg m c b).1.indentation_lvl =
      cfg.indentation_lvl ++
        pyRepZ cfg.indentation_type cfg.indentantion_size ∧
    (end_block l cfg m2 c2 b2 s2).1.indentation_lvl =
      pyTakeToNeg cfg.indentation_lvl cfg.indentantion_size := by
  refine ⟨runBlocks_balanced l cfg w hw hinit hty hsz, ?_, ?_⟩
  · rw [start_block_state, lazyInit_of_init hinit]
    rfl
  · rw [end_block_state, lazyInit_of_init (show (del_lvl cfg).is_init = true
      from hinit), lazyInit_of_init (show (del_lvl cfg).is_init = true
      from hinit)]
    rfl

/-- Witness for C8: one start_block/end_block pair on the initialized default
configuration. -/
theorem block_indentation_symmetry_witness :
    runBlocks .en cfgInit
        [.start ["t"] "BLUE" "", .stop ["t"] "BLUE" "" ""] = cfgInit ∧
    (start_block .en cfgInit ["t"] "BLUE" "").1.indentation_lvl =
      cfgInit.indentation_lvl ++
        pyRepZ cfgInit.indentation_type cfgInit.indentantion_size ∧
    (end_block .en cfgInit ["t"] "BLUE" "" "").1.indentation_lvl =
      pyTakeToNeg cfgInit.indentation_lvl cfgInit.indentantion_size :=
  block_indentation_symmetry .en cfgInit
    [.start ["t"] "BLUE" "", .stop ["t"] "BLUE" "" ""]
    ["t"] "BLUE" "" ["t"] "BLUE" "" "" rfl rfl (by decide)
    (Balanced.wrap ["t"] "BLUE" "" ["t"] "BLUE" "" ""
      Balanced.nil Balanced.nil)

end ConsoleVerse
